import Mathlib

/-!
Shallow embedding of the ath3k firmware loader (src/usr.bin/ath3k/ath3k_hw.c
and src/usr.bin/ath3k/main.c) and proofs about it.

USB transfers, firmware-file reads and frees are modelled as events in a
trace.  The behaviour of the outside world (libusb return codes, the bytes
the device places in the caller-provided buffers, the contents of firmware
files on disk) is supplied through explicit environment records; each
function returns the pair of its C `int` result and the list of events it
emitted, in order.
-/

/-- Event emitted by the loader: a vendor control-IN transfer (request code
and requested length), a vendor control-OUT transfer (request code and
payload), a bulk-OUT transfer (endpoint and payload), the read of a firmware
file by name, or the release of a firmware blob. -/
inductive Ev where
  | controlIn (req : Nat) (len : Nat)
  | controlOut (req : Nat) (data : List Nat)
  | bulkOut (ep : Nat) (data : List Nat)
  | fwRead (name : List Char)
  | fwFree
deriving DecidableEq

/-- Payload bytes carried by an event (empty for queries, reads and frees). -/
def evPayload : Ev → List Nat
  | Ev.controlOut _ d => d
  | Ev.bulkOut _ d => d
  | _ => []

/-- Modelled from the spec: HDR_SIZE, the maximal byte count of the initial
control-OUT DNLOAD transfer (glossary: a device constant of 20 bytes).  The
defining header ath3k_hw.h is not part of src/. -/
def FW_HDR_SIZE : Nat := 20

/-- Modelled from the spec: BULK_SIZE, the maximal chunk size on the bulk
OUT endpoint (glossary: 4096 bytes).  The defining header ath3k_hw.h is not
part of src/. -/
def BULK_SIZE : Nat := 4096

/-- Modelled from the spec: the vendor request codes.  The spec calls them
device-specific; the claims depend only on the codes being pairwise
distinct, and the values below keep them so. -/
def ATH3K_DNLOAD : Nat := 0x01

/-- Modelled from the spec: vendor request code of the GETSTATE query. -/
def ATH3K_GETSTATE : Nat := 0x05

/-- Modelled from the spec: vendor request code of SET_NORMAL_MODE. -/
def ATH3K_SET_NORMAL_MODE : Nat := 0x07

/-- Modelled from the spec: vendor request code of the GETVERSION query. -/
def ATH3K_GETVERSION : Nat := 0x09

/-- Modelled from the spec: vendor request code of SWITCH_VID_PID. -/
def USB_REG_SWITCH_VID_PID : Nat := 0x0a

/-- Modelled from the spec: mask selecting the MODE field of the state
byte. -/
def ATH3K_MODE_MASK : Nat := 0x3f

/-- Modelled from the spec: MODE-field value meaning the device is already
in runtime (normal) mode. -/
def ATH3K_NORMAL_MODE : Nat := 0x0e

/-- Modelled from the spec: the PATCH_UPDATE flag bit of the state byte
(scenario S2 gives the state byte 0x80 as PATCH_UPDATE set). -/
def ATH3K_PATCH_UPDATE : Nat := 0x80

/-- Modelled from the spec: ref_clock enumeration, 0x00 meaning 19.2 MHz. -/
def ATH3K_XTAL_FREQ_19P2 : Nat := 0x00

/-- Modelled from the spec: ref_clock enumeration, 0x01 meaning 26 MHz. -/
def ATH3K_XTAL_FREQ_26M : Nat := 0x01

/-- Modelled from the spec: ref_clock enumeration, 0x02 meaning 40 MHz. -/
def ATH3K_XTAL_FREQ_40M : Nat := 0x02

/-- Modelled from the spec: errno constant EBUSY (ath3k_load_syscfg returns
-EBUSY when its state query fails). -/
def EBUSY : Int := 16

/-- The struct ath3k_version of the device: four 32-bit fields, modelled as
naturals. -/
structure ath3k_version where
  rom_version : Nat
  build_version : Nat
  ram_version : Nat
  ref_clock : Nat
deriving DecidableEq

/-- Little-endian value of a byte list, as read by the 32-bit aliasing
loads in ath3k_load_patch. -/
def le32 (bs : List Nat) : Nat :=
  bs.foldr (fun b acc => b + 256 * acc) 0

/-- ath3k_load_patch, line 205: pt_ver.rom_version is the 4-byte
little-endian load at offset len-8 of the blob. -/
def patch_rom_version (buf : List Nat) : Nat :=
  le32 ((buf.drop (buf.length - 8)).take 4)

/-- ath3k_load_patch, line 206: pt_ver.build_version is the 4-byte
little-endian load at offset len-4 of the blob. -/
def patch_build_version (buf : List Nat) : Nat :=
  le32 ((buf.drop (buf.length - 4)).take 4)

/-- ath3k_get_state (ath3k_hw.c lines 109-132): given the
libusb_control_transfer return value, the function returns 0 when the
transfer failed (ret below 0) and otherwise the C truth value of ret == 1.
The state byte itself lands in the caller's buffer and is modelled
separately in the stage environments. -/
def ath3k_get_state (ret : Int) : Int :=
  if ret < 0 then 0 else if ret = 1 then 1 else 0

/-- ath3k_get_version (ath3k_hw.c lines 134-160): given the
libusb_control_transfer return value, returns 0 on transfer failure and
otherwise the C truth value of ret == sizeof(struct ath3k_version), the
struct being 16 bytes (four 32-bit fields). -/
def ath3k_get_version (ret : Int) : Int :=
  if ret < 0 then 0 else if ret = 16 then 1 else 0

/-- Bulk-upload loop of ath3k_load_fwfile (ath3k_hw.c lines 86-105).  The
C loop runs while count is nonzero, each iteration sending
min(count, BULK_SIZE) bytes from offset sent on endpoint 0x2 and aborting
with -1 unless the transfer status is nonnegative and the transferred count
r equals the chunk size.  The loop is rendered structurally with a fuel
argument bounding the number of iterations; every caller passes
fuel = count, which suffices because each iteration removes at least one
byte.  blk gives, for the i-th bulk transfer, the pair (status, r). -/
def loadBulk (blk : Nat → Int × Int) (buf : List Nat) :
    Nat → Nat → Nat → Nat → Int × List Ev
  | 0, _, _, _ => (0, [])
  | fuel + 1, sent, count, i =>
    if count = 0 then (0, [])
    else if (blk i).1 < 0 ∨ (blk i).2 ≠ ((min count BULK_SIZE : Nat) : Int) then
      (-1, [Ev.bulkOut 2 ((buf.drop sent).take (min count BULK_SIZE))])
    else
      ((loadBulk blk buf fuel (sent + min count BULK_SIZE)
          (count - min count BULK_SIZE) (i + 1)).1,
        Ev.bulkOut 2 ((buf.drop sent).take (min count BULK_SIZE)) ::
        (loadBulk blk buf fuel (sent + min count BULK_SIZE)
          (count - min count BULK_SIZE) (i + 1)).2)

/-- ath3k_load_fwfile (ath3k_hw.c lines 50-107): one control-OUT DNLOAD
transfer of the first min(len, FW_HDR_SIZE) bytes, failing with -1 unless
the control transfer accepted exactly that many bytes, then the bulk loop
over the remainder.  ctl is the libusb return of the control transfer. -/
def ath3k_load_fwfile (ctl : Int) (blk : Nat → Int × Int) (buf : List Nat) :
    Int × List Ev :=
  let size := min buf.length FW_HDR_SIZE
  let hdrEv := Ev.controlOut ATH3K_DNLOAD (buf.take size)
  if ctl ≠ (size : Int) then (-1, [hdrEv])
  else
    let rest := loadBulk blk buf (buf.length - size) size (buf.length - size) 0
    (rest.1, hdrEv :: rest.2)

/-- Rendering of the printf conversion %08x: lowercase hexadecimal digits,
zero-padded on the left to at least eight characters. -/
def hex8 (n : Nat) : List Char :=
  List.replicate (8 - (Nat.toDigits 16 n).length) '0' ++ Nat.toDigits 16 n

/-- Patch-file name composed by ath3k_load_patch (line 190):
snprintf of fw_path, "/ar3k/AthrBT_0x", %08x of the rom version and
".dfu". -/
def patch_filename (fw_path : List Char) (rom : Nat) : List Char :=
  fw_path ++ ("/ar3k/AthrBT_0x").toList ++ hex8 rom ++ (".dfu").toList

/-- Syscfg-file name composed by ath3k_load_syscfg (line 271): snprintf of
fw_path, "/ar3k/ramps_0x", %08x of the rom version, an underscore, %d of
the clock value and ".dfu". -/
def syscfg_filename (fw_path : List Char) (rom clk : Nat) : List Char :=
  fw_path ++ ("/ar3k/ramps_0x").toList ++ hex8 rom ++ ("_").toList ++
    Nat.toDigits 10 clk ++ (".dfu").toList

/-- Environment of one ath3k_load_patch run: the libusb return codes of the
two queries, the state byte and version record found in the caller's
buffers after those calls, the outcome of ath3k_fw_read on the composed
patch-file name (none models a failure, ath3k_fw_read is in ath3k_fw.c,
outside src/), and the transfer results seen by ath3k_load_fwfile. -/
structure PatchEnv where
  gs_ret : Int
  fw_state : Nat
  gv_ret : Int
  fw_ver : ath3k_version
  fw_read : Option (List Nat)
  ctl : Int
  blk : Nat → Int × Int

/-- ath3k_load_patch (ath3k_hw.c lines 162-229): query the state; abort if
the (never negative) result is negative; skip with success when the
PATCH_UPDATE bit is set; query the version; compose the patch-file name
from the rom version; read the blob; parse the trailer; reject with -1
unless the patch rom version matches and its build version is strictly
newer; otherwise upload the blob and free it. -/
def ath3k_load_patch (env : PatchEnv) (fw_path : List Char) : Int × List Ev :=
  if ath3k_get_state env.gs_ret < 0 then
    (ath3k_get_state env.gs_ret, [Ev.controlIn ATH3K_GETSTATE 1])
  else if env.fw_state &&& ATH3K_PATCH_UPDATE ≠ 0 then
    (0, [Ev.controlIn ATH3K_GETSTATE 1])
  else if ath3k_get_version env.gv_ret < 0 then
    (ath3k_get_version env.gv_ret,
      [Ev.controlIn ATH3K_GETSTATE 1, Ev.controlIn ATH3K_GETVERSION 16])
  else
    match env.fw_read with
    | none =>
      (-1, [Ev.controlIn ATH3K_GETSTATE 1, Ev.controlIn ATH3K_GETVERSION 16,
        Ev.fwRead (patch_filename fw_path env.fw_ver.rom_version)])
    | some buf =>
      if patch_rom_version buf ≠ env.fw_ver.rom_version ∨
          patch_build_version buf ≤ env.fw_ver.build_version then
        (-1, [Ev.controlIn ATH3K_GETSTATE 1, Ev.controlIn ATH3K_GETVERSION 16,
          Ev.fwRead (patch_filename fw_path env.fw_ver.rom_version), Ev.fwFree])
      else
        ((ath3k_load_fwfile env.ctl env.blk buf).1,
          [Ev.controlIn ATH3K_GETSTATE 1, Ev.controlIn ATH3K_GETVERSION 16,
            Ev.fwRead (patch_filename fw_path env.fw_ver.rom_version)] ++
          (ath3k_load_fwfile env.ctl env.blk buf).2 ++ [Ev.fwFree])

lemma ath3k_get_state_not_neg (ret : Int) : ¬ ath3k_get_state ret < 0 := by
  unfold ath3k_get_state
  split_ifs <;> omega

lemma ath3k_get_version_not_neg (ret : Int) : ¬ ath3k_get_version ret < 0 := by
  unfold ath3k_get_version
  split_ifs <;> omega

lemma loadBulk_success (blk : Nat → Int × Int) (buf : List Nat) :
    ∀ (fuel sent count i : Nat), count ≤ fuel → sent + count ≤ buf.length →
    (loadBulk blk buf fuel sent count i).1 = 0 →
    (loadBulk blk buf fuel sent count i).2.length =
      (count + BULK_SIZE - 1) / BULK_SIZE ∧
    (∀ e ∈ (loadBulk blk buf fuel sent count i).2,
      ∃ d, e = Ev.bulkOut 2 d ∧ d.length ≤ BULK_SIZE) ∧
    ((loadBulk blk buf fuel sent count i).2.map evPayload).flatten =
      (buf.drop sent).take count := by
  intro fuel
  induction fuel with
  | zero =>
    intro sent count i hcf _ _
    have hc : count = 0 := Nat.le_zero.mp hcf
    subst hc
    refine ⟨?_, ?_, ?_⟩ <;> simp [loadBulk, BULK_SIZE]
  | succ fuel ih =>
    intro sent count i hcf hlen hres
    by_cases hc : count = 0
    · subst hc
      refine ⟨?_, ?_, ?_⟩ <;> simp [loadBulk, BULK_SIZE]
    · have hone : 1 ≤ count := Nat.one_le_iff_ne_zero.mpr hc
      have hmle : min count BULK_SIZE ≤ count := Nat.min_le_left _ _
      have hmB : min count BULK_SIZE ≤ BULK_SIZE := Nat.min_le_right _ _
      have hmpos : 1 ≤ min count BULK_SIZE := by
        have hB : 0 < BULK_SIZE := by norm_num [BULK_SIZE]
        exact le_min hone hB
      simp only [loadBulk, if_neg hc] at hres ⊢
      by_cases hfail :
          (blk i).1 < 0 ∨ (blk i).2 ≠ ((min count BULK_SIZE : Nat) : Int)
      · rw [if_pos hfail] at hres
        exact absurd hres (by norm_num)
      · rw [if_neg hfail] at hres ⊢
        obtain ⟨ihlen, ihmem, ihflat⟩ :=
          ih (sent + min count BULK_SIZE) (count - min count BULK_SIZE) (i + 1)
            (by omega) (by omega) hres
        refine ⟨?_, ?_, ?_⟩
        · simp only [List.length_cons, ihlen]
          simp only [BULK_SIZE] at hone ⊢
          omega
        · intro e he
          rcases List.mem_cons.mp he with he | he
          · exact ⟨_, he, le_trans (List.length_take_le _ _) hmB⟩
          · exact ihmem e he
        · simp only [List.map_cons, List.flatten_cons, ihflat]
          have hdd : buf.drop (sent + min count BULK_SIZE) =
              (buf.drop sent).drop (min count BULK_SIZE) :=
            (List.drop_drop _ _ _).symm
          rw [hdd, show count = min count BULK_SIZE + (count - min count BULK_SIZE) by
            omega, List.take_add]
          simp [evPayload]

/-- Claim C1: on a successful run, ath3k_load_fwfile emits exactly one
control-OUT DNLOAD transfer carrying the first min(len, FW_HDR_SIZE) bytes
of the blob as the very first transfer, followed by
ceil((len - header) / BULK_SIZE) bulk-OUT transfers to endpoint 2, each of
at most BULK_SIZE bytes, whose concatenation equals the remainder of the
blob, in order. -/
theorem C1_upload_chunking (ctl : Int) (blk : Nat → Int × Int)
    (buf : List Nat) (hlen : 8 ≤ buf.length)
    (hok : (ath3k_load_fwfile ctl blk buf).1 = 0) :
    ∃ bulks : List Ev,
      (ath3k_load_fwfile ctl blk buf).2 =
        Ev.controlOut ATH3K_DNLOAD
          (buf.take (min buf.length FW_HDR_SIZE)) :: bulks ∧
      bulks.length =
        (buf.length - min buf.length FW_HDR_SIZE + BULK_SIZE - 1) / BULK_SIZE ∧
      (∀ e ∈ bulks, ∃ d, e = Ev.bulkOut 2 d ∧ d.length ≤ BULK_SIZE) ∧
      (bulks.map evPayload).flatten =
        buf.drop (min buf.length FW_HDR_SIZE) := by
  by_cases hc : ctl ≠ ((min buf.length FW_HDR_SIZE : Nat) : Int)
  · simp only [ath3k_load_fwfile, if_pos hc] at hok
    exact absurd hok (by norm_num)
  · simp only [ath3k_load_fwfile, if_neg hc] at hok ⊢
    have hminle : min buf.length FW_HDR_SIZE ≤ buf.length :=
      Nat.min_le_left _ _
    obtain ⟨hlen2, hmem, hflat⟩ :=
      loadBulk_success blk buf _ _ _ _ le_rfl (by omega) hok
    refine ⟨_, rfl, hlen2, hmem, ?_⟩
    rw [hflat]
    have hld : (buf.drop (min buf.length FW_HDR_SIZE)).length =
        buf.length - min buf.length FW_HDR_SIZE := List.length_drop _ _
    exact List.take_of_length_le (le_of_eq hld)

/-- Witness for C1 at a concrete blob of 8 bytes with a fully successful
environment. -/
theorem C1_upload_chunking_witness :
    8 ≤ ([0, 1, 2, 3, 4, 5, 6, 7] : List Nat).length ∧
    (ath3k_load_fwfile 8 (fun _ => (0, 0)) [0, 1, 2, 3, 4, 5, 6, 7]).1 = 0 ∧
    (∃ bulks : List Ev,
      (ath3k_load_fwfile 8 (fun _ => (0, 0)) [0, 1, 2, 3, 4, 5, 6, 7]).2 =
        Ev.controlOut ATH3K_DNLOAD
          (([0, 1, 2, 3, 4, 5, 6, 7] : List Nat).take
            (min ([0, 1, 2, 3, 4, 5, 6, 7] : List Nat).length FW_HDR_SIZE)) ::
          bulks ∧
      bulks.length =
        (([0, 1, 2, 3, 4, 5, 6, 7] : List Nat).length -
          min ([0, 1, 2, 3, 4, 5, 6, 7] : List Nat).length FW_HDR_SIZE +
          BULK_SIZE - 1) / BULK_SIZE ∧
      (∀ e ∈ bulks, ∃ d, e = Ev.bulkOut 2 d ∧ d.length ≤ BULK_SIZE) ∧
      (bulks.map evPayload).flatten =
        ([0, 1, 2, 3, 4, 5, 6, 7] : List Nat).drop
          (min ([0, 1, 2, 3, 4, 5, 6, 7] : List Nat).length FW_HDR_SIZE)) :=
  ⟨by decide, by decide,
    C1_upload_chunking 8 (fun _ => (0, 0)) [0, 1, 2, 3, 4, 5, 6, 7]
      (by decide) (by decide)⟩

/-- Claim C10: ath3k_get_state and ath3k_get_version return only 0 (on a
transport error, ret below 0, or a short read) or 1 (on a full-length
read: 1 byte for the state, 16 bytes for the version record); they never
return a negative value, so a caller testing their result with a
strictly-less-than-zero comparison never observes a failure. -/
theorem C10_queries_never_negative : ∀ ret : Int,
    (ath3k_get_state ret = 0 ∨ ath3k_get_state ret = 1) ∧
    (ath3k_get_state ret = 1 ↔ ret = 1) ∧
    ¬ ath3k_get_state ret < 0 ∧
    (ath3k_get_version ret = 0 ∨ ath3k_get_version ret = 1) ∧
    (ath3k_get_version ret = 1 ↔ ret = 16) ∧
    ¬ ath3k_get_version ret < 0 := by
  intro ret
  unfold ath3k_get_state ath3k_get_version
  split_ifs <;> simp_all <;> omega

lemma ath3k_load_fwfile_trace_head (ctl : Int) (blk : Nat → Int × Int)
    (buf : List Nat) :
    ∃ rest, (ath3k_load_fwfile ctl blk buf).2 =
      Ev.controlOut ATH3K_DNLOAD (buf.take (min buf.length FW_HDR_SIZE)) ::
        rest := by
  simp only [ath3k_load_fwfile]
  split
  · exact ⟨[], rfl⟩
  · exact ⟨_, rfl⟩

/-- Claim C3: whenever the state byte delivered by the GETSTATE query has
the PATCH_UPDATE bit set, ath3k_load_patch returns success (0) at once:
its trace is the single state query, so no firmware file is read, no
version query is made, and no control-OUT (in particular no DNLOAD)
transfer is emitted. -/
theorem C3_patch_update_skips (env : PatchEnv) (fw_path : List Char)
    (h : env.fw_state &&& ATH3K_PATCH_UPDATE ≠ 0) :
    (ath3k_load_patch env fw_path).1 = 0 ∧
    (ath3k_load_patch env fw_path).2 = [Ev.controlIn ATH3K_GETSTATE 1] ∧
    (∀ name, Ev.fwRead name ∉ (ath3k_load_patch env fw_path).2) ∧
    (∀ req data, Ev.controlOut req data ∉ (ath3k_load_patch env fw_path).2) ∧
    Ev.controlIn ATH3K_GETVERSION 16 ∉ (ath3k_load_patch env fw_path).2 := by
  have hgs := ath3k_get_state_not_neg env.gs_ret
  simp only [ath3k_load_patch, if_neg hgs, if_pos h]
  refine ⟨by simp, by simp, ?_, ?_, ?_⟩ <;>
    simp [ATH3K_GETSTATE, ATH3K_GETVERSION]

/-- Witness for C3: a device whose state byte is 0x80. -/
theorem C3_patch_update_skips_witness :
    (ath3k_load_patch ⟨1, 128, 1, ⟨0, 0, 0, 0⟩, none, 0, fun _ => (0, 0)⟩
        ([] : List Char)).1 = 0 ∧
    (ath3k_load_patch ⟨1, 128, 1, ⟨0, 0, 0, 0⟩, none, 0, fun _ => (0, 0)⟩
        ([] : List Char)).2 = [Ev.controlIn ATH3K_GETSTATE 1] ∧
    (∀ name, Ev.fwRead name ∉
      (ath3k_load_patch ⟨1, 128, 1, ⟨0, 0, 0, 0⟩, none, 0, fun _ => (0, 0)⟩
        ([] : List Char)).2) ∧
    (∀ req data, Ev.controlOut req data ∉
      (ath3k_load_patch ⟨1, 128, 1, ⟨0, 0, 0, 0⟩, none, 0, fun _ => (0, 0)⟩
        ([] : List Char)).2) ∧
    Ev.controlIn ATH3K_GETVERSION 16 ∉
      (ath3k_load_patch ⟨1, 128, 1, ⟨0, 0, 0, 0⟩, none, 0, fun _ => (0, 0)⟩
        ([] : List Char)).2 :=
  C3_patch_update_skips ⟨1, 128, 1, ⟨0, 0, 0, 0⟩, none, 0, fun _ => (0, 0)⟩
    ([] : List Char) (by decide)

/-- Claim C2: once the patch stage reaches the version check (PATCH_UPDATE
clear, blob read successfully), the upload proceeds — a DNLOAD control-OUT
transfer appears in the trace — if and only if the patch rom version
equals the device rom version and the patch build version is strictly
greater than the device build version; when the condition fails (equal
builds included) the stage returns the negative value -1, frees the blob,
and emits no DNLOAD transfer. -/
theorem C2_patch_version_gate (env : PatchEnv) (fw_path : List Char)
    (buf : List Nat)
    (hst : env.fw_state &&& ATH3K_PATCH_UPDATE = 0)
    (hread : env.fw_read = some buf) :
    ((∃ d, Ev.controlOut ATH3K_DNLOAD d ∈ (ath3k_load_patch env fw_path).2) ↔
      (patch_rom_version buf = env.fw_ver.rom_version ∧
        env.fw_ver.build_version < patch_build_version buf)) ∧
    (¬(patch_rom_version buf = env.fw_ver.rom_version ∧
        env.fw_ver.build_version < patch_build_version buf) →
      (ath3k_load_patch env fw_path).1 = -1 ∧
      Ev.fwFree ∈ (ath3k_load_patch env fw_path).2) := by
  have hgs := ath3k_get_state_not_neg env.gs_ret
  have hgv := ath3k_get_version_not_neg env.gv_ret
  have hst' : ¬ env.fw_state &&& ATH3K_PATCH_UPDATE ≠ 0 := by simp [hst]
  simp only [ath3k_load_patch, if_neg hgs, if_neg hst', if_neg hgv, hread]
  by_cases hv : patch_rom_version buf = env.fw_ver.rom_version ∧
      env.fw_ver.build_version < patch_build_version buf
  · have hcond : ¬ (patch_rom_version buf ≠ env.fw_ver.rom_version ∨
        patch_build_version buf ≤ env.fw_ver.build_version) := by
      push_neg
      exact ⟨hv.1, hv.2⟩
    rw [if_neg hcond]
    obtain ⟨rest, hrest⟩ := ath3k_load_fwfile_trace_head env.ctl env.blk buf
    refine ⟨⟨fun _ => hv, fun _ => ?_⟩, fun hcontra => absurd hv hcontra⟩
    exact ⟨buf.take (min buf.length FW_HDR_SIZE), by simp [hrest]⟩
  · have hcond : patch_rom_version buf ≠ env.fw_ver.rom_version ∨
        patch_build_version buf ≤ env.fw_ver.build_version := by
      rcases not_and_or.mp hv with h | h
      · exact Or.inl h
      · exact Or.inr (not_lt.mp h)
    rw [if_pos hcond]
    refine ⟨⟨fun hd => ?_, fun hvv => absurd hvv hv⟩, fun _ => ⟨rfl, by simp⟩⟩
    obtain ⟨d, hd⟩ := hd
    simp at hd

/-- Witness for C2: a device at rom 5, build 3, and a patch blob whose
trailer encodes rom 5, build 7, so the upload proceeds. -/
theorem C2_patch_version_gate_witness :
    (⟨1, 0, 1, ⟨5, 3, 0, 0⟩, some [5, 0, 0, 0, 7, 0, 0, 0], 8,
        fun _ => (0, 0)⟩ : PatchEnv).fw_state &&& ATH3K_PATCH_UPDATE = 0 ∧
    (⟨1, 0, 1, ⟨5, 3, 0, 0⟩, some [5, 0, 0, 0, 7, 0, 0, 0], 8,
        fun _ => (0, 0)⟩ : PatchEnv).fw_read =
      some [5, 0, 0, 0, 7, 0, 0, 0] ∧
    ((∃ d, Ev.controlOut ATH3K_DNLOAD d ∈
        (ath3k_load_patch
          ⟨1, 0, 1, ⟨5, 3, 0, 0⟩, some [5, 0, 0, 0, 7, 0, 0, 0], 8,
            fun _ => (0, 0)⟩ ([] : List Char)).2) ↔
      (patch_rom_version [5, 0, 0, 0, 7, 0, 0, 0] =
          (⟨5, 3, 0, 0⟩ : ath3k_version).rom_version ∧
        (⟨5, 3, 0, 0⟩ : ath3k_version).build_version <
          patch_build_version [5, 0, 0, 0, 7, 0, 0, 0])) :=
  ⟨by decide, by decide,
    (C2_patch_version_gate
      ⟨1, 0, 1, ⟨5, 3, 0, 0⟩, some [5, 0, 0, 0, 7, 0, 0, 0], 8,
        fun _ => (0, 0)⟩ ([] : List Char) [5, 0, 0, 0, 7, 0, 0, 0]
      (by decide) (by decide)).1⟩

/-- Claim C6 (code-bug demonstration): when the GETSTATE control transfer
fails with a transport error (libusb return -1), ath3k_get_state returns 0,
the stage's test for a negative result does not fire, and ath3k_load_patch
continues — it issues the GETVERSION query and even opens the patch file
instead of aborting immediately.  The trace below is the run with both
queries failing at transport level and the file read failing. -/
theorem C6_query_error_not_fatal :
    (ath3k_load_patch ⟨-1, 0, -1, ⟨0, 0, 0, 0⟩, none, 0, fun _ => (0, 0)⟩
        (("/fw").toList)).2 =
      [Ev.controlIn ATH3K_GETSTATE 1, Ev.controlIn ATH3K_GETVERSION 16,
        Ev.fwRead (patch_filename (("/fw").toList) 0)] := by
  decide

/-- Claim C8: the patch version metadata is a function of the last 8 bytes
of the blob only — for any head prepended to an 8-byte tail, the parsed
rom version is the little-endian value of the tail's first 4 bytes (blob
bytes [len-8, len-4)) and the parsed build version is the little-endian
value of the tail's last 4 bytes (blob bytes [len-4, len)); no head bytes
enter the parse. -/
theorem C8_trailer_parse : ∀ (head tail : List Nat), tail.length = 8 →
    patch_rom_version (head ++ tail) = le32 (tail.take 4) ∧
    patch_build_version (head ++ tail) = le32 (tail.drop 4) := by
  intro head tail ht
  constructor
  · unfold patch_rom_version
    congr 1
    have h1 : (head ++ tail).length - 8 = head.length := by
      rw [List.length_append, ht]
      omega
    rw [h1, List.drop_left]
  · unfold patch_build_version
    have h2 : (head ++ tail).length - 4 = head.length + 4 := by
      rw [List.length_append, ht]
      omega
    rw [h2, ← List.drop_drop, List.drop_left]
    congr 1
    exact List.take_of_length_le (by simp [ht])

/-- Witness for C8 at a concrete head and 8-byte tail. -/
theorem C8_trailer_parse_witness :
    ([1, 0, 0, 0, 2, 0, 0, 0] : List Nat).length = 8 ∧
    (patch_rom_version ([9, 9] ++ [1, 0, 0, 0, 2, 0, 0, 0]) =
      le32 (([1, 0, 0, 0, 2, 0, 0, 0] : List Nat).take 4) ∧
    patch_build_version ([9, 9] ++ [1, 0, 0, 0, 2, 0, 0, 0]) =
      le32 (([1, 0, 0, 0, 2, 0, 0, 0] : List Nat).drop 4)) :=
  ⟨by decide, C8_trailer_parse [9, 9] [1, 0, 0, 0, 2, 0, 0, 0] (by decide)⟩

/-- Clock switch of ath3k_load_syscfg (ath3k_hw.c lines 256-269): the
ref_clock field selects the decimal clock value, defaulting to 0. -/
def ath3k_clk_value (ref_clock : Nat) : Nat :=
  if ref_clock = ATH3K_XTAL_FREQ_26M then 26
  else if ref_clock = ATH3K_XTAL_FREQ_40M then 40
  else if ref_clock = ATH3K_XTAL_FREQ_19P2 then 19
  else 0

/-- Modelled from the spec: the clock-identifier map
26MHz stands for 26, 40MHz for 40, 19.2MHz for 19, anything else for 0. -/
def clock_id_spec (ref_clock : Nat) : Nat :=
  if ref_clock = ATH3K_XTAL_FREQ_26M then 26
  else if ref_clock = ATH3K_XTAL_FREQ_40M then 40
  else if ref_clock = ATH3K_XTAL_FREQ_19P2 then 19
  else 0

/-- Environment of one ath3k_load_syscfg run, analogous to PatchEnv.  The
state byte read by its state query is unused by the code and therefore not
modelled. -/
structure SyscfgEnv where
  gs_ret : Int
  gv_ret : Int
  fw_ver : ath3k_version
  fw_read : Option (List Nat)
  ctl : Int
  blk : Nat → Int × Int

/-- ath3k_load_syscfg (ath3k_hw.c lines 231-292): query state (abort with
-EBUSY on a negative result, which never happens), query version, map the
reference clock, compose the ramps file name, read the blob, upload it and
free it. -/
def ath3k_load_syscfg (env : SyscfgEnv) (fw_path : List Char) :
    Int × List Ev :=
  if ath3k_get_state env.gs_ret < 0 then
    (-EBUSY, [Ev.controlIn ATH3K_GETSTATE 1])
  else if ath3k_get_version env.gv_ret < 0 then
    (ath3k_get_version env.gv_ret,
      [Ev.controlIn ATH3K_GETSTATE 1, Ev.controlIn ATH3K_GETVERSION 16])
  else
    match env.fw_read with
    | none =>
      (-1, [Ev.controlIn ATH3K_GETSTATE 1, Ev.controlIn ATH3K_GETVERSION 16,
        Ev.fwRead (syscfg_filename fw_path env.fw_ver.rom_version
          (ath3k_clk_value env.fw_ver.ref_clock))])
    | some buf =>
      ((ath3k_load_fwfile env.ctl env.blk buf).1,
        [Ev.controlIn ATH3K_GETSTATE 1, Ev.controlIn ATH3K_GETVERSION 16,
          Ev.fwRead (syscfg_filename fw_path env.fw_ver.rom_version
            (ath3k_clk_value env.fw_ver.ref_clock))] ++
        (ath3k_load_fwfile env.ctl env.blk buf).2 ++ [Ev.fwFree])

lemma syscfg_filename_zero (fw_path : List Char) (rom : Nat) :
    syscfg_filename fw_path rom 0 =
      (fw_path ++ ("/ar3k/ramps_0x").toList ++ hex8 rom) ++
        ("_0.dfu").toList := by
  unfold syscfg_filename
  have h : ("_").toList ++ (Nat.toDigits 10 0 ++ (".dfu").toList) =
      ("_0.dfu").toList := by decide
  simp only [List.append_assoc, h]

/-- Claim C4: the device's ref_clock is mapped to a decimal clock
identifier by exactly the function sending the 26 MHz constant to 26, the
40 MHz constant to 40, the 19.2 MHz constant to 19 and everything else to
0; the composed syscfg filename is fw_path/ar3k/ramps_0x%08x_%d.dfu built
from the rom version and that identifier (every run of ath3k_load_syscfg
reads exactly that file); and for a ref_clock outside the three known
constants the filename ends in _0.dfu. -/
theorem C4_syscfg_clock_filename (env : SyscfgEnv) (fw_path : List Char) :
    (∀ rc, ath3k_clk_value rc = clock_id_spec rc) ∧
    Ev.fwRead (syscfg_filename fw_path env.fw_ver.rom_version
        (ath3k_clk_value env.fw_ver.ref_clock)) ∈
      (ath3k_load_syscfg env fw_path).2 ∧
    (env.fw_ver.ref_clock ≠ ATH3K_XTAL_FREQ_26M →
      env.fw_ver.ref_clock ≠ ATH3K_XTAL_FREQ_40M →
      env.fw_ver.ref_clock ≠ ATH3K_XTAL_FREQ_19P2 →
      List.IsSuffix (("_0.dfu").toList)
        (syscfg_filename fw_path env.fw_ver.rom_version
          (ath3k_clk_value env.fw_ver.ref_clock))) := by
  have hgs := ath3k_get_state_not_neg env.gs_ret
  have hgv := ath3k_get_version_not_neg env.gv_ret
  refine ⟨fun rc => rfl, ?_, fun h1 h2 h3 => ?_⟩
  · simp only [ath3k_load_syscfg, if_neg hgs, if_neg hgv]
    cases h : env.fw_read <;> simp
  · have h0 : ath3k_clk_value env.fw_ver.ref_clock = 0 := by
      unfold ath3k_clk_value
      rw [if_neg h1, if_neg h2, if_neg h3]
    rw [h0, syscfg_filename_zero]
    exact List.suffix_append _ _

/-- Witness for C4 at ref_clock 7 (outside the known constants), rom
version 0x300. -/
theorem C4_syscfg_clock_filename_witness :
    Ev.fwRead (syscfg_filename (("/fw").toList) 768 (ath3k_clk_value 7)) ∈
      (ath3k_load_syscfg ⟨1, 16, ⟨768, 0, 0, 7⟩, none, 0, fun _ => (0, 0)⟩
        (("/fw").toList)).2 ∧
    List.IsSuffix (("_0.dfu").toList)
      (syscfg_filename (("/fw").toList) 768 (ath3k_clk_value 7)) :=
  ⟨(C4_syscfg_clock_filename
      ⟨1, 16, ⟨768, 0, 0, 7⟩, none, 0, fun _ => (0, 0)⟩ (("/fw").toList)).2.1,
    (C4_syscfg_clock_filename
      ⟨1, 16, ⟨768, 0, 0, 7⟩, none, 0, fun _ => (0, 0)⟩ (("/fw").toList)).2.2
      (by decide) (by decide) (by decide)⟩

/-- Environment of one ath3k_set_normal_mode run: the libusb return of the
state query, the state byte found in the buffer, and the libusb return of
the SET_NORMAL_MODE control transfer. -/
structure NormalEnv where
  gs_ret : Int
  fw_state : Nat
  ctl_ret : Int

/-- ath3k_set_normal_mode (ath3k_hw.c lines 294-330): query the state;
skip with success when the MODE field already equals NORMAL_MODE;
otherwise issue the SET_NORMAL_MODE control transfer, returning 0 on a
transport error and the C truth value of ret == 0 otherwise. -/
def ath3k_set_normal_mode (env : NormalEnv) : Int × List Ev :=
  if ath3k_get_state env.gs_ret < 0 then
    (ath3k_get_state env.gs_ret, [Ev.controlIn ATH3K_GETSTATE 1])
  else if env.fw_state &&& ATH3K_MODE_MASK = ATH3K_NORMAL_MODE then
    (0, [Ev.controlIn ATH3K_GETSTATE 1])
  else if env.ctl_ret < 0 then
    (0, [Ev.controlIn ATH3K_GETSTATE 1,
      Ev.controlOut ATH3K_SET_NORMAL_MODE []])
  else
    (if env.ctl_ret = 0 then 1 else 0,
      [Ev.controlIn ATH3K_GETSTATE 1,
        Ev.controlOut ATH3K_SET_NORMAL_MODE []])

/-- ath3k_switch_pid (ath3k_hw.c lines 332-354): issue the SWITCH_VID_PID
control transfer, returning 0 on a transport error and the C truth value
of ret == 0 otherwise. -/
def ath3k_switch_pid (ctl_ret : Int) : Int × List Ev :=
  (if ctl_ret < 0 then 0 else if ctl_ret = 0 then 1 else 0,
    [Ev.controlOut USB_REG_SWITCH_VID_PID []])

/-- ath3k_init_ar3012 (main.c lines 88-113): run the patch, syscfg and
normal-mode stages, aborting on a negative result, then call
ath3k_switch_pid discarding its result and return 0. -/
def ath3k_init_ar3012 (penv : PatchEnv) (senv : SyscfgEnv)
    (nenv : NormalEnv) (sp_ret : Int) (fw_path : List Char) :
    Int × List Ev :=
  if (ath3k_load_patch penv fw_path).1 < 0 then
    ath3k_load_patch penv fw_path
  else if (ath3k_load_syscfg senv fw_path).1 < 0 then
    ((ath3k_load_syscfg senv fw_path).1,
      (ath3k_load_patch penv fw_path).2 ++ (ath3k_load_syscfg senv fw_path).2)
  else if (ath3k_set_normal_mode nenv).1 < 0 then
    ((ath3k_set_normal_mode nenv).1,
      (ath3k_load_patch penv fw_path).2 ++
        (ath3k_load_syscfg senv fw_path).2 ++ (ath3k_set_normal_mode nenv).2)
  else
    (0, (ath3k_load_patch penv fw_path).2 ++
      (ath3k_load_syscfg senv fw_path).2 ++ (ath3k_set_normal_mode nenv).2 ++
      (ath3k_switch_pid sp_ret).2)

/-- Environment of one ath3k_init_firmware run: the outcome of reading
ath3k-1.fw and the transfer results of its upload. -/
structure LegacyEnv where
  fw_read : Option (List Nat)
  ctl : Int
  blk : Nat → Int × Int

/-- ath3k_init_firmware (main.c lines 115-141): compose
fw_path/ath3k-1.fw, read it (returning -1 on failure), upload it, free the
blob, and return 0 — the source assigns the upload result to ret but
returns 0 unconditionally. -/
def ath3k_init_firmware (env : LegacyEnv) (fw_path : List Char) :
    Int × List Ev :=
  match env.fw_read with
  | none => (-1, [Ev.fwRead (fw_path ++ ("/ath3k-1.fw").toList)])
  | some buf =>
    (0, Ev.fwRead (fw_path ++ ("/ath3k-1.fw").toList) ::
      (ath3k_load_fwfile env.ctl env.blk buf).2 ++ [Ev.fwFree])

lemma ath3k_set_normal_mode_nonneg (env : NormalEnv) :
    0 ≤ (ath3k_set_normal_mode env).1 := by
  have hgs := ath3k_get_state_not_neg env.gs_ret
  unfold ath3k_set_normal_mode
  rw [if_neg hgs]
  split_ifs <;> simp

/-- Claim C5: when the state byte masked with MODE_MASK equals
NORMAL_MODE, ath3k_set_normal_mode issues no SET_NORMAL_MODE control
transfer and returns success; and every AR3012 run that reaches Stage N
(patch and syscfg stages returned nonnegative results) issues the
SWITCH_VID_PID control transfer afterwards, unconditionally. -/
theorem C5_normal_mode_skip_switch_always :
    (∀ nenv : NormalEnv,
      nenv.fw_state &&& ATH3K_MODE_MASK = ATH3K_NORMAL_MODE →
      (ath3k_set_normal_mode nenv).1 = 0 ∧
      Ev.controlOut ATH3K_SET_NORMAL_MODE [] ∉
        (ath3k_set_normal_mode nenv).2) ∧
    (∀ (penv : PatchEnv) (senv : SyscfgEnv) (nenv : NormalEnv)
        (sp_ret : Int) (fw_path : List Char),
      0 ≤ (ath3k_load_patch penv fw_path).1 →
      0 ≤ (ath3k_load_syscfg senv fw_path).1 →
      Ev.controlOut USB_REG_SWITCH_VID_PID [] ∈
        (ath3k_init_ar3012 penv senv nenv sp_ret fw_path).2) := by
  constructor
  · intro nenv h
    have hgs := ath3k_get_state_not_neg nenv.gs_ret
    simp only [ath3k_set_normal_mode, if_neg hgs, if_pos h]
    exact ⟨by simp, by simp⟩
  · intro penv senv nenv sp_ret fw_path hp hs
    have hn := ath3k_set_normal_mode_nonneg nenv
    simp only [ath3k_init_ar3012, if_neg (not_lt.mpr hp),
      if_neg (not_lt.mpr hs), if_neg (not_lt.mpr hn)]
    simp [ath3k_switch_pid]

/-- Witness for C5: a device already in normal mode (state byte 0x0e), and
a full AR3012 run (patch already present, syscfg uploaded from an 8-byte
blob) whose SWITCH_VID_PID transfer fails with -1. -/
theorem C5_normal_mode_skip_switch_always_witness :
    ((ath3k_set_normal_mode ⟨1, 14, 0⟩).1 = 0 ∧
      Ev.controlOut ATH3K_SET_NORMAL_MODE [] ∉
        (ath3k_set_normal_mode ⟨1, 14, 0⟩).2) ∧
    Ev.controlOut USB_REG_SWITCH_VID_PID [] ∈
      (ath3k_init_ar3012
        ⟨1, 128, 1, ⟨0, 0, 0, 0⟩, none, 0, fun _ => (0, 0)⟩
        ⟨1, 16, ⟨0, 0, 0, 0⟩, some [0, 0, 0, 0, 0, 0, 0, 0], 8,
          fun _ => (0, 0)⟩
        ⟨1, 14, 0⟩ (-1) (("/fw").toList)).2 :=
  ⟨C5_normal_mode_skip_switch_always.1 ⟨1, 14, 0⟩ (by decide),
    C5_normal_mode_skip_switch_always.2
      ⟨1, 128, 1, ⟨0, 0, 0, 0⟩, none, 0, fun _ => (0, 0)⟩
      ⟨1, 16, ⟨0, 0, 0, 0⟩, some [0, 0, 0, 0, 0, 0, 0, 0], 8,
        fun _ => (0, 0)⟩
      ⟨1, 14, 0⟩ (-1) (("/fw").toList) (by decide) (by decide)⟩

/-- Claim C9: a failure of the SWITCH_VID_PID transfer is never fatal —
whenever the AR3012 orchestrator reaches its final step (patch and syscfg
returned nonnegative results; the normal-mode step never returns a
negative result), ath3k_init_ar3012 returns 0 whatever the result of
ath3k_switch_pid. -/
theorem C9_switch_pid_never_fatal (penv : PatchEnv) (senv : SyscfgEnv)
    (nenv : NormalEnv) (sp_ret : Int) (fw_path : List Char)
    (hp : 0 ≤ (ath3k_load_patch penv fw_path).1)
    (hs : 0 ≤ (ath3k_load_syscfg senv fw_path).1) :
    (ath3k_init_ar3012 penv senv nenv sp_ret fw_path).1 = 0 := by
  have hn := ath3k_set_normal_mode_nonneg nenv
  simp only [ath3k_init_ar3012, if_neg (not_lt.mpr hp),
    if_neg (not_lt.mpr hs), if_neg (not_lt.mpr hn)]

/-- Witness for C9: the same concrete run as for C5 but with the
SET_NORMAL_MODE transfer also failing at transport level and
SWITCH_VID_PID failing with -7; the orchestrator still returns 0. -/
theorem C9_switch_pid_never_fatal_witness :
    (ath3k_init_ar3012
      ⟨1, 128, 1, ⟨0, 0, 0, 0⟩, none, 0, fun _ => (0, 0)⟩
      ⟨1, 16, ⟨0, 0, 0, 0⟩, some [0, 0, 0, 0, 0, 0, 0, 0], 8,
        fun _ => (0, 0)⟩
      ⟨1, 0, -1⟩ (-7) (("/fw").toList)).1 = 0 :=
  C9_switch_pid_never_fatal
    ⟨1, 128, 1, ⟨0, 0, 0, 0⟩, none, 0, fun _ => (0, 0)⟩
    ⟨1, 16, ⟨0, 0, 0, 0⟩, some [0, 0, 0, 0, 0, 0, 0, 0], 8,
      fun _ => (0, 0)⟩
    ⟨1, 0, -1⟩ (-7) (("/fw").toList) (by decide) (by decide)

/-- Claim C7 (code-bug demonstration): ath3k_init_firmware ignores the
result of ath3k_load_fwfile — main.c assigns it to ret and then returns 0
unconditionally.  With an 8-byte blob whose DNLOAD control transfer fails
(libusb return -1), the upload fails with -1 yet the legacy stage reports
success. -/
theorem C7_legacy_upload_error_swallowed :
    (ath3k_load_fwfile (-1) (fun _ => (0, 0))
      [0, 0, 0, 0, 0, 0, 0, 0]).1 = -1 ∧
    (ath3k_init_firmware
      ⟨some [0, 0, 0, 0, 0, 0, 0, 0], -1, fun _ => (0, 0)⟩
      (("/fw").toList)).1 = 0 := by
  decide
